import Mathlib

/-!
Shallow embedding of the galvanic-mock support library (`src/lib.rs`):
the behaviour registry (`MockState`), the `GivenBehaviour` and
`ExpectBehaviour` records, and the verification operations of the
`MockControl` trait.

Modelling conventions:
* `usize` is modelled as `Nat` reduced modulo `2 ^ 64` wherever the code
  performs arithmetic (64-bit platform); `std::usize::MAX` is `usizeMax`.
* The type-erased payload `bound : Rc<Any>` is never inspected by this
  code, only kept alive; it is modelled as `Unit`.
* `Cell`/`RefCell` interior mutability is modelled by explicit state
  passing: a mutating operation returns the updated record.
* `std::thread::panicking()` is an ambient flag, passed explicitly.
* A `panic!` is modelled as returning `some message`; a normal return is
  `none`.
* The `HashMap` keyed by `(&'static str, &'static str)` is modelled as an
  association list; iteration over `values()` follows the list order (the
  map's iteration order is unspecified in the source, and no verified
  property depends on it).
-/

/-- Number of values of `usize` on a 64-bit platform, `2 ^ 64`. -/
def usizeSize : Nat := 18446744073709551616

/-- `std::usize::MAX` on a 64-bit platform, `2 ^ 64 - 1`. -/
def usizeMax : Nat := 18446744073709551615

/-- Embeds `struct GivenBehaviour` (state of a *given* behaviour). -/
structure GivenBehaviour where
  stmt_id : Nat
  num_matches : Nat
  expected_matches : Option Nat
  bound : Unit
  stmt_repr : String
deriving DecidableEq

/-- Embeds `GivenBehaviour::with`: a behaviour which is never exhausted.
Named `with'` because `with` is reserved in Lean. -/
def GivenBehaviour.with' (stmt_id : Nat) (bound : Unit) (stmt_repr : String) :
    GivenBehaviour :=
  { stmt_id := stmt_id
    num_matches := 0
    expected_matches := none
    bound := bound
    stmt_repr := stmt_repr }

/-- Embeds `GivenBehaviour::with_times`: exhausted after `times` matches. -/
def GivenBehaviour.with_times (times : Nat) (stmt_id : Nat) (bound : Unit)
    (stmt_repr : String) : GivenBehaviour :=
  { stmt_id := stmt_id
    num_matches := 0
    expected_matches := some times
    bound := bound
    stmt_repr := stmt_repr }

/-- Embeds `GivenBehaviour::matched`:
`self.num_matches.set(self.num_matches.get() + 1)` on a `Cell<usize>`. -/
def GivenBehaviour.matched (b : GivenBehaviour) : GivenBehaviour :=
  { b with num_matches := (b.num_matches + 1) % usizeSize }

/-- Embeds `GivenBehaviour::is_saturated`. -/
def GivenBehaviour.is_saturated (b : GivenBehaviour) : Bool :=
  match b.expected_matches with
  | some limit => decide (limit ≤ b.num_matches)
  | none => false

/-- Embeds `GivenBehaviour::describe`. -/
def GivenBehaviour.describe (b : GivenBehaviour) : String :=
  b.stmt_repr

/-- Embeds `struct ExpectBehaviour` (state of an *expected* behaviour). -/
structure ExpectBehaviour where
  stmt_id : Nat
  num_matches : Nat
  expected_min_matches : Option Nat
  expected_max_matches : Option Nat
  in_order : Option Bool
  bound : Unit
  stmt_repr : String
deriving DecidableEq

/-- Embeds `ExpectBehaviour::with_times`: satisfied iff matched exactly
`times` times. -/
def ExpectBehaviour.with_times (times : Nat) (stmt_id : Nat) (bound : Unit)
    (stmt_repr : String) : ExpectBehaviour :=
  { stmt_id := stmt_id
    num_matches := 0
    expected_min_matches := some times
    expected_max_matches := some times
    in_order := none
    bound := bound
    stmt_repr := stmt_repr }

/-- Embeds `ExpectBehaviour::with_at_least`. -/
def ExpectBehaviour.with_at_least (at_least_times : Nat) (stmt_id : Nat)
    (bound : Unit) (stmt_repr : String) : ExpectBehaviour :=
  { stmt_id := stmt_id
    num_matches := 0
    expected_min_matches := some at_least_times
    expected_max_matches := none
    in_order := none
    bound := bound
    stmt_repr := stmt_repr }

/-- Embeds `ExpectBehaviour::with_at_most`. -/
def ExpectBehaviour.with_at_most (at_most_times : Nat) (stmt_id : Nat)
    (bound : Unit) (stmt_repr : String) : ExpectBehaviour :=
  { stmt_id := stmt_id
    num_matches := 0
    expected_min_matches := none
    expected_max_matches := some at_most_times
    in_order := none
    bound := bound
    stmt_repr := stmt_repr }

/-- Embeds `ExpectBehaviour::with_between` (inclusive endpoints). -/
def ExpectBehaviour.with_between (at_least_times : Nat) (at_most_times : Nat)
    (stmt_id : Nat) (bound : Unit) (stmt_repr : String) : ExpectBehaviour :=
  { stmt_id := stmt_id
    num_matches := 0
    expected_min_matches := some at_least_times
    expected_max_matches := some at_most_times
    in_order := none
    bound := bound
    stmt_repr := stmt_repr }

/-- Embeds `ExpectBehaviour::matched`. -/
def ExpectBehaviour.matched (b : ExpectBehaviour) : ExpectBehaviour :=
  { b with num_matches := (b.num_matches + 1) % usizeSize }

/-- Embeds `ExpectBehaviour::is_saturated`:
`expected_min_matches.unwrap_or(0) <= num_matches.get()
 && num_matches.get() <= expected_max_matches.unwrap_or(usize::MAX)`. -/
def ExpectBehaviour.is_saturated (b : ExpectBehaviour) : Bool :=
  decide (b.expected_min_matches.getD 0 ≤ b.num_matches) &&
    decide (b.num_matches ≤ b.expected_max_matches.getD usizeMax)

/-- Embeds `ExpectBehaviour::describe`. -/
def ExpectBehaviour.describe (b : ExpectBehaviour) : String :=
  b.stmt_repr

/-- Key of a behaviour bucket: `(requested_trait, method)`. -/
abbrev BehaviourKey := String × String

/-- Embeds `HashMap::get` on the behaviour maps. -/
def bucketGet {β : Type} (m : List (BehaviourKey × List β)) (k : BehaviourKey) :
    Option (List β) :=
  match m with
  | [] => none
  | (k2, bs) :: rest => if k2 = k then some bs else bucketGet rest k

/-- Embeds `map.entry(key).or_insert_with(|| Vec::new()).push(b)`. -/
def bucketAppend {β : Type} (m : List (BehaviourKey × List β))
    (k : BehaviourKey) (b : β) : List (BehaviourKey × List β) :=
  match m with
  | [] => [(k, [b])]
  | (k2, bs) :: rest =>
    if k2 = k then (k2, bs ++ [b]) :: rest else (k2, bs) :: bucketAppend rest k b

/-- Embeds `struct MockState`. -/
structure MockState where
  given_behaviours : List (BehaviourKey × List GivenBehaviour)
  expect_behaviours : List (BehaviourKey × List ExpectBehaviour)
  verify_on_drop : Bool
deriving DecidableEq

/-- Embeds `MockState::new`. -/
def MockState.new : MockState :=
  { given_behaviours := []
    expect_behaviours := []
    verify_on_drop := true }

/-- Embeds `MockControl::should_verify_on_drop` for `MockState`. -/
def MockState.should_verify_on_drop (s : MockState) (flag : Bool) : MockState :=
  { s with verify_on_drop := flag }

/-- Embeds `MockControl::add_given_behaviour` for `MockState`. -/
def MockState.add_given_behaviour (s : MockState) (requested_trait : String)
    (method : String) (behaviour : GivenBehaviour) : MockState :=
  { s with given_behaviours :=
      bucketAppend s.given_behaviours (requested_trait, method) behaviour }

/-- Embeds `MockControl::reset_given_behaviours` for `MockState`. -/
def MockState.reset_given_behaviours (s : MockState) : MockState :=
  { s with given_behaviours := [] }

/-- Embeds `MockControl::add_expect_behaviour` for `MockState`. -/
def MockState.add_expect_behaviour (s : MockState) (requested_trait : String)
    (method : String) (behaviour : ExpectBehaviour) : MockState :=
  { s with expect_behaviours :=
      bucketAppend s.expect_behaviours (requested_trait, method) behaviour }

/-- Embeds `MockControl::reset_expected_behaviours` for `MockState`. -/
def MockState.reset_expected_behaviours (s : MockState) : MockState :=
  { s with expect_behaviours := [] }

/-- The diagnostic line pushed for one unsatisfied behaviour:
`format!("Behaviour unsatisfied with {} matching invocations: {}", ...)`. -/
def unsatisfiedMessage (b : ExpectBehaviour) : String :=
  "Behaviour unsatisfied with " ++ toString b.num_matches ++
    " matching invocations: " ++ b.describe

/-- The `unsatisfied_messages` vector built by the loop in
`are_expected_behaviours_satisfied`: one message per unsatisfied behaviour,
over `values().flat_map(|vs| vs)`. -/
def unsatisfiedMessages (m : List (BehaviourKey × List ExpectBehaviour)) :
    List String :=
  (m.flatMap fun kv => kv.2).filterMap fun b =>
    if b.is_saturated then none else some (unsatisfiedMessage b)

/-- Embeds `MockControl::are_expected_behaviours_satisfied` for `MockState`.
The first component is the list of diagnostic messages printed to stderr;
the second is the returned boolean (`true` iff no message was collected). -/
def MockState.are_expected_behaviours_satisfied (s : MockState) :
    List String × Bool :=
  let msgs := unsatisfiedMessages s.expect_behaviours
  (msgs, msgs.isEmpty)

/-- Embeds `MockControl::verify` for `MockState`: panics (returns
`some message`) iff the thread is not already panicking and some expected
behaviour is unsatisfied. -/
def MockState.verify (s : MockState) (panicking : Bool) : Option String :=
  if !panicking && !(s.are_expected_behaviours_satisfied).2 then
    some "There are unsatisfied expected behaviours for mocked traits."
  else
    none

/-- Embeds `impl Drop for MockState`: on destruction, run `verify` iff
`verify_on_drop` is set. -/
def MockState.drop (s : MockState) (panicking : Bool) : Option String :=
  if s.verify_on_drop then s.verify panicking else none

/-- State-passing form of `are_expected_behaviours_satisfied`: the body
performs only reads (`RefCell::borrow`, `Cell::get`, `is_saturated`,
`describe`), so the resulting state is the input state. -/
def MockState.are_expected_behaviours_satisfiedS (s : MockState) :
    MockState × (List String × Bool) :=
  (s, s.are_expected_behaviours_satisfied)

/-- State-passing form of `verify`: the body only reads state. -/
def MockState.verifyS (s : MockState) (panicking : Bool) :
    MockState × Option String :=
  (s, s.verify panicking)

/-- Applies `GivenBehaviour::matched` `k` times (a sequence of
`record_match()` calls). -/
def GivenBehaviour.matchedN : GivenBehaviour → Nat → GivenBehaviour
  | b, 0 => b
  | b, k + 1 => (GivenBehaviour.matchedN b k).matched

/-- Applies `ExpectBehaviour::matched` `k` times (a sequence of
`record_match()` calls). -/
def ExpectBehaviour.matchedN : ExpectBehaviour → Nat → ExpectBehaviour
  | b, 0 => b
  | b, k + 1 => (ExpectBehaviour.matchedN b k).matched

theorem GivenBehaviour.matchedN_expected (b : GivenBehaviour) (k : Nat) :
    (b.matchedN k).expected_matches = b.expected_matches := by
  induction k with
  | zero => rfl
  | succ k ih => simpa [GivenBehaviour.matchedN, GivenBehaviour.matched] using ih

theorem GivenBehaviour.matchedN_count (b : GivenBehaviour) (k : Nat)
    (h : b.num_matches + k ≤ usizeMax) :
    (b.matchedN k).num_matches = b.num_matches + k := by
  induction k with
  | zero => rfl
  | succ k ih =>
    have hk : b.num_matches + k ≤ usizeMax := by omega
    show ((b.matchedN k).num_matches + 1) % usizeSize = b.num_matches + (k + 1)
    rw [ih hk]
    have hlt : b.num_matches + k + 1 < usizeSize := by
      unfold usizeMax at h
      unfold usizeSize
      omega
    rw [Nat.mod_eq_of_lt hlt]
    omega

theorem ExpectBehaviour.matchedN_min (b : ExpectBehaviour) (k : Nat) :
    (b.matchedN k).expected_min_matches = b.expected_min_matches := by
  induction k with
  | zero => rfl
  | succ k ih => simpa [ExpectBehaviour.matchedN, ExpectBehaviour.matched] using ih

theorem ExpectBehaviour.matchedN_max (b : ExpectBehaviour) (k : Nat) :
    (b.matchedN k).expected_max_matches = b.expected_max_matches := by
  induction k with
  | zero => rfl
  | succ k ih => simpa [ExpectBehaviour.matchedN, ExpectBehaviour.matched] using ih

theorem ExpectBehaviour.matchedN_countE (b : ExpectBehaviour) (k : Nat)
    (h : b.num_matches + k ≤ usizeMax) :
    (b.matchedN k).num_matches = b.num_matches + k := by
  induction k with
  | zero => rfl
  | succ k ih =>
    have hk : b.num_matches + k ≤ usizeMax := by omega
    show ((b.matchedN k).num_matches + 1) % usizeSize = b.num_matches + (k + 1)
    rw [ih hk]
    have hlt : b.num_matches + k + 1 < usizeSize := by
      unfold usizeMax at h
      unfold usizeSize
      omega
    rw [Nat.mod_eq_of_lt hlt]
    omega

theorem bucketGet_bucketAppend {β : Type} (m : List (BehaviourKey × List β))
    (k : BehaviourKey) (b : β) :
    bucketGet (bucketAppend m k b) k = some ((bucketGet m k).getD [] ++ [b]) := by
  induction m with
  | nil => simp [bucketAppend, bucketGet]
  | cons kv rest ih =>
    obtain ⟨k2, bs⟩ := kv
    by_cases h : k2 = k
    · subst h
      simp [bucketAppend, bucketGet]
    · simp [bucketAppend, bucketGet, h, ih]

theorem unsatisfiedMessages_eq_nil_iff
    (m : List (BehaviourKey × List ExpectBehaviour)) :
    unsatisfiedMessages m = [] ↔
      ∀ kv ∈ m, ∀ b ∈ kv.2, b.is_saturated = true := by
  unfold unsatisfiedMessages
  rw [List.filterMap_eq_nil_iff]
  constructor
  · intro h kv hkv b hb
    have hb2 := h b (List.mem_flatMap.mpr ⟨kv, hkv, hb⟩)
    cases hsat : b.is_saturated with
    | true => rfl
    | false => simp [hsat] at hb2
  · intro h b hb
    obtain ⟨kv, hkv, hbkv⟩ := List.mem_flatMap.mp hb
    simp [h kv hkv b hbkv]

theorem unsatisfiedMessage_mem (m : List (BehaviourKey × List ExpectBehaviour))
    (kv : BehaviourKey × List ExpectBehaviour) (hkv : kv ∈ m)
    (b : ExpectBehaviour) (hb : b ∈ kv.2) (hns : b.is_saturated = false) :
    unsatisfiedMessage b ∈ unsatisfiedMessages m := by
  unfold unsatisfiedMessages
  exact List.mem_filterMap.mpr
    ⟨b, List.mem_flatMap.mpr ⟨kv, hkv, hb⟩, by simp [hns]⟩

/-- Decides whether `pat` occurs at the head of `s` (over character lists). -/
def charsLeadWith : List Char → List Char → Bool
  | _, [] => true
  | [], _ :: _ => false
  | c :: cs, d :: ds => c == d && charsLeadWith cs ds

/-- Decides whether `pat` occurs contiguously anywhere in `s`. -/
def charsContain : List Char → List Char → Bool
  | [], pat => pat.isEmpty
  | c :: cs, pat => charsLeadWith (c :: cs) pat || charsContain cs pat

/-- A string `s` contains `pat` as a contiguous substring. -/
def strContains (s pat : String) : Bool :=
  charsContain s.data pat.data

theorem charsLeadWith_append (pat rest : List Char) :
    charsLeadWith (pat ++ rest) pat = true := by
  induction pat with
  | nil => cases rest <;> rfl
  | cons c cs ih => simp [charsLeadWith, ih]

theorem charsContain_nil (l : List Char) : charsContain l [] = true := by
  cases l <;> simp [charsContain, charsLeadWith]

theorem charsContain_middle (u pat v : List Char) :
    charsContain (u ++ pat ++ v) pat = true := by
  induction u with
  | nil =>
    cases pat with
    | nil => simpa using charsContain_nil v
    | cons c cs =>
      show charsContain ((c :: cs) ++ v) (c :: cs) = true
      have := charsLeadWith_append (c :: cs) v
      simp [charsContain] at this ⊢
      exact Or.inl this
  | cons a as ih =>
    have hstep : (a :: as) ++ pat ++ v = a :: (as ++ pat ++ v) := by simp
    rw [hstep]
    show (charsLeadWith (a :: (as ++ pat ++ v)) pat ||
      charsContain (as ++ pat ++ v) pat) = true
    rw [ih]
    exact Bool.or_true _

theorem strContains_middle (a pat c : String) :
    strContains (a ++ pat ++ c) pat = true := by
  unfold strContains
  rw [String.data_append (a ++ pat) c, String.data_append a pat]
  exact charsContain_middle a.data pat.data c.data

theorem strContains_of_eq (s a pat c : String) (h : s = a ++ pat ++ c) :
    strContains s pat = true := by
  rw [h]
  exact strContains_middle a pat c

theorem ExpectBehaviour.is_saturated_iff (b : ExpectBehaviour) :
    b.is_saturated = true ↔
      b.expected_min_matches.getD 0 ≤ b.num_matches ∧
        b.num_matches ≤ b.expected_max_matches.getD usizeMax := by
  simp [ExpectBehaviour.is_saturated]

theorem unsatisfiedMessages_isEmpty_eq
    (m : List (BehaviourKey × List ExpectBehaviour)) :
    (unsatisfiedMessages m).isEmpty =
      (m.flatMap fun kv => kv.2).all ExpectBehaviour.is_saturated := by
  unfold unsatisfiedMessages
  generalize (m.flatMap fun kv => kv.2) = l
  induction l with
  | nil => rfl
  | cons b bs ih =>
    cases hsat : b.is_saturated <;>
      simp [List.filterMap_cons, hsat, List.all_cons, ih]

/-- A registry with one unsatisfied expected behaviour (`at_least(1)` under
`("Repo", "save")`, never matched). -/
def unsatState : MockState :=
  MockState.new.add_expect_behaviour "Repo" "save"
    (ExpectBehaviour.with_at_least 1 0 () "save called at least once")

/-- C1 counterexample: on a registry with an unsatisfied expectation and no
unwinding in progress, `verify()` does raise a fatal error, but its message
is `There are unsatisfied expected behaviours for mocked traits.` (capital
`T`), not the lowercase message quoted by the claim. -/
theorem c1_claim_counterexample :
    (unsatState.are_expected_behaviours_satisfied).2 = false ∧
    unsatState.verify false ≠ none ∧
    unsatState.verify false ≠
      some "there are unsatisfied expected behaviours for mocked traits." := by
  refine ⟨by decide, by decide, by decide⟩

/-- C1 (amended): `verify()` does nothing when the execution context is
already panicking; otherwise, if some expected behaviour is unsatisfied it
panics with the message
`There are unsatisfied expected behaviours for mocked traits.`, and if all
are satisfied it returns without raising. -/
theorem c1_verify_spec (s : MockState) (panicking : Bool) :
    (panicking = true → s.verify panicking = none) ∧
    (panicking = false → (s.are_expected_behaviours_satisfied).2 = false →
      s.verify panicking =
        some "There are unsatisfied expected behaviours for mocked traits.") ∧
    ((s.are_expected_behaviours_satisfied).2 = true →
      s.verify panicking = none) := by
  refine ⟨?_, ?_, ?_⟩
  · intro h
    simp [MockState.verify, h]
  · intro h h2
    simp [MockState.verify, h, h2]
  · intro h
    simp [MockState.verify, h]

/-- C1 witness: concrete instances of `c1_verify_spec`. -/
theorem c1_verify_spec_witness :
    unsatState.verify false =
      some "There are unsatisfied expected behaviours for mocked traits." ∧
    unsatState.verify true = none ∧
    MockState.new.verify false = none := by
  exact ⟨(c1_verify_spec unsatState false).2.1 rfl (by decide),
    (c1_verify_spec unsatState true).1 rfl,
    (c1_verify_spec MockState.new false).2.2 (by decide)⟩

/-- C2 (confirmed): `are_expected_behaviours_satisfied` returns `true` iff
every expected behaviour in every bucket satisfies `is_saturated`; the
boolean equals a function of the behaviour records alone (independent of
the emitted diagnostics), and a registry with no expectations yields
`true`. -/
theorem c2_satisfaction_query_spec (s : MockState) :
    ((s.are_expected_behaviours_satisfied).2 = true ↔
      ∀ kv ∈ s.expect_behaviours, ∀ b ∈ kv.2, b.is_saturated = true) ∧
    (s.are_expected_behaviours_satisfied).2 =
      (s.expect_behaviours.flatMap fun kv => kv.2).all
        ExpectBehaviour.is_saturated ∧
    (MockState.new.are_expected_behaviours_satisfied).2 = true := by
  refine ⟨?_, ?_, rfl⟩
  · show (unsatisfiedMessages s.expect_behaviours).isEmpty = true ↔ _
    rw [List.isEmpty_iff, unsatisfiedMessages_eq_nil_iff]
  · exact unsatisfiedMessages_isEmpty_eq s.expect_behaviours

/-- C2 witness: the empty registry reports all expectations satisfied. -/
theorem c2_satisfaction_query_spec_witness :
    (MockState.new.are_expected_behaviours_satisfied).2 = true :=
  (c2_satisfaction_query_spec MockState.new).2.2

/-- C3 (confirmed): `is_saturated` holds iff
`min.unwrap_or(0) ≤ match_count ≤ max.unwrap_or(usize::MAX)`; the four
constructors normalize to `(min, max)` as `exact(n) → (n, n)`,
`at_least(n) → (n, absent)`, `at_most(n) → (absent, n)`,
`between(lo, hi) → (lo, hi)`; consequently after `c` recorded matches
(`c` a `usize` value, so `c ≤ usize::MAX`) an `exact(n)` behaviour is
satisfied iff `c = n`, an `at_least(n)` one iff `n ≤ c`, and for
`lo ≤ hi` a `between(lo, hi)` one iff `lo ≤ c ≤ hi`. -/
theorem c3_expect_satisfaction_spec :
    (∀ b : ExpectBehaviour,
      b.is_saturated = true ↔
        b.expected_min_matches.getD 0 ≤ b.num_matches ∧
          b.num_matches ≤ b.expected_max_matches.getD usizeMax) ∧
    (∀ n i r, (ExpectBehaviour.with_times n i () r).expected_min_matches = some n ∧
      (ExpectBehaviour.with_times n i () r).expected_max_matches = some n) ∧
    (∀ n i r c, c ≤ usizeMax →
      (((ExpectBehaviour.with_times n i () r).matchedN c).is_saturated = true ↔
        c = n)) ∧
    (∀ n i r, (ExpectBehaviour.with_at_least n i () r).expected_min_matches = some n ∧
      (ExpectBehaviour.with_at_least n i () r).expected_max_matches = none) ∧
    (∀ n i r c, c ≤ usizeMax →
      (((ExpectBehaviour.with_at_least n i () r).matchedN c).is_saturated = true ↔
        n ≤ c)) ∧
    (∀ n i r, (ExpectBehaviour.with_at_most n i () r).expected_min_matches = none ∧
      (ExpectBehaviour.with_at_most n i () r).expected_max_matches = some n) ∧
    (∀ lo hi i r, (ExpectBehaviour.with_between lo hi i () r).expected_min_matches = some lo ∧
      (ExpectBehaviour.with_between lo hi i () r).expected_max_matches = some hi) ∧
    (∀ lo hi i r c, lo ≤ hi → c ≤ usizeMax →
      (((ExpectBehaviour.with_between lo hi i () r).matchedN c).is_saturated = true ↔
        lo ≤ c ∧ c ≤ hi)) := by
  refine ⟨ExpectBehaviour.is_saturated_iff, fun n i r => ⟨rfl, rfl⟩, ?_,
    fun n i r => ⟨rfl, rfl⟩, ?_, fun n i r => ⟨rfl, rfl⟩,
    fun lo hi i r => ⟨rfl, rfl⟩, ?_⟩
  · intro n i r c hc
    have hcnt : ((ExpectBehaviour.with_times n i () r).matchedN c).num_matches = c := by
      simpa [ExpectBehaviour.with_times] using
        ExpectBehaviour.matchedN_countE (ExpectBehaviour.with_times n i () r) c
          (by simpa [ExpectBehaviour.with_times] using hc)
    rw [ExpectBehaviour.is_saturated_iff, hcnt, ExpectBehaviour.matchedN_min,
      ExpectBehaviour.matchedN_max]
    simp [ExpectBehaviour.with_times]
    omega
  · intro n i r c hc
    have hcnt : ((ExpectBehaviour.with_at_least n i () r).matchedN c).num_matches = c := by
      simpa [ExpectBehaviour.with_at_least] using
        ExpectBehaviour.matchedN_countE (ExpectBehaviour.with_at_least n i () r) c
          (by simpa [ExpectBehaviour.with_at_least] using hc)
    rw [ExpectBehaviour.is_saturated_iff, hcnt, ExpectBehaviour.matchedN_min,
      ExpectBehaviour.matchedN_max]
    simp [ExpectBehaviour.with_at_least]
    unfold usizeMax at hc ⊢
    omega
  · intro lo hi i r c hlohi hc
    have hcnt : ((ExpectBehaviour.with_between lo hi i () r).matchedN c).num_matches = c := by
      simpa [ExpectBehaviour.with_between] using
        ExpectBehaviour.matchedN_countE (ExpectBehaviour.with_between lo hi i () r) c
          (by simpa [ExpectBehaviour.with_between] using hc)
    rw [ExpectBehaviour.is_saturated_iff, hcnt, ExpectBehaviour.matchedN_min,
      ExpectBehaviour.matchedN_max]
    simp [ExpectBehaviour.with_between]

/-- C3 witness: concrete instances of `c3_expect_satisfaction_spec`. -/
theorem c3_expect_satisfaction_spec_witness :
    ((ExpectBehaviour.with_times 2 0 () "r").matchedN 2).is_saturated = true ∧
    ((ExpectBehaviour.with_at_least 1 0 () "r2").matchedN 3).is_saturated = true ∧
    ((ExpectBehaviour.with_between 1 3 0 () "r3").matchedN 2).is_saturated = true := by
  refine ⟨(c3_expect_satisfaction_spec.2.2.1 2 0 "r" 2 (by decide)).mpr rfl,
    (c3_expect_satisfaction_spec.2.2.2.2.1 1 0 "r2" 3 (by decide)).mpr (by decide),
    (c3_expect_satisfaction_spec.2.2.2.2.2.2.2 1 3 0 "r3" 2 (by decide) (by decide)).mpr
      (by decide)⟩

/-- C4 (confirmed): a given behaviour with limit `L` is exhausted iff its
match count has reached `L` (false strictly below `L`, true at or above,
including after any sequence of `record_match()` calls), and a given
behaviour constructed without a limit is never exhausted. -/
theorem c4_given_exhaustion_spec :
    (∀ b : GivenBehaviour, ∀ L, b.expected_matches = some L →
      (b.is_saturated = true ↔ L ≤ b.num_matches)) ∧
    (∀ b : GivenBehaviour, b.expected_matches = none → b.is_saturated = false) ∧
    (∀ L i r k, k ≤ usizeMax →
      (((GivenBehaviour.with_times L i () r).matchedN k).is_saturated = true ↔
        L ≤ k)) ∧
    (∀ L i r k, k < L → k ≤ usizeMax →
      ((GivenBehaviour.with_times L i () r).matchedN k).is_saturated = false) ∧
    (∀ i r k, ((GivenBehaviour.with' i () r).matchedN k).is_saturated = false) := by
  have hkey : ∀ L i r k, k ≤ usizeMax →
      (((GivenBehaviour.with_times L i () r).matchedN k).is_saturated = true ↔
        L ≤ k) := by
    intro L i r k hk
    have hcnt : ((GivenBehaviour.with_times L i () r).matchedN k).num_matches = k := by
      simpa [GivenBehaviour.with_times] using
        GivenBehaviour.matchedN_count (GivenBehaviour.with_times L i () r) k
          (by simpa [GivenBehaviour.with_times] using hk)
    have hexp : ((GivenBehaviour.with_times L i () r).matchedN k).expected_matches = some L := by
      rw [GivenBehaviour.matchedN_expected]
      rfl
    simp [GivenBehaviour.is_saturated, hexp, hcnt]
  refine ⟨?_, ?_, hkey, ?_, ?_⟩
  · intro b L h
    simp [GivenBehaviour.is_saturated, h]
  · intro b h
    simp [GivenBehaviour.is_saturated, h]
  · intro L i r k hkL hk
    have h1 := hkey L i r k hk
    cases hs : ((GivenBehaviour.with_times L i () r).matchedN k).is_saturated with
    | false => rfl
    | true => exact absurd (h1.mp hs) (by omega)
  · intro i r k
    have hexp : ((GivenBehaviour.with' i () r).matchedN k).expected_matches = none := by
      rw [GivenBehaviour.matchedN_expected]
      rfl
    simp [GivenBehaviour.is_saturated, hexp]

/-- C4 witness: concrete instances of `c4_given_exhaustion_spec`. -/
theorem c4_given_exhaustion_spec_witness :
    ((GivenBehaviour.with_times 2 0 () "g").matchedN 1).is_saturated = false ∧
    ((GivenBehaviour.with_times 2 0 () "g2").matchedN 3).is_saturated = true := by
  exact ⟨c4_given_exhaustion_spec.2.2.2.1 2 0 "g" 1 (by decide) (by decide),
    (c4_given_exhaustion_spec.2.2.1 2 0 "g2" 3 (by decide)).mpr (by decide)⟩

/-- C5 (confirmed): `verify_on_drop` defaults to `true` at construction;
dropping a registry with the flag set runs `verify` as part of
destruction; with the flag cleared, dropping raises nothing, while an
explicit `verify` call (which ignores the flag) still raises when some
expectation is unsatisfied. -/
theorem c5_verify_on_drop_spec :
    MockState.new.verify_on_drop = true ∧
    (∀ s : MockState, ∀ p : Bool, s.verify_on_drop = true →
      s.drop p = s.verify p) ∧
    (∀ s : MockState, ∀ p : Bool, (s.should_verify_on_drop false).drop p = none) ∧
    (∀ s : MockState, ∀ p flag : Bool,
      (s.should_verify_on_drop flag).verify p = s.verify p) ∧
    (∀ s : MockState, (s.are_expected_behaviours_satisfied).2 = false →
      s.verify false =
        some "There are unsatisfied expected behaviours for mocked traits.") := by
  refine ⟨rfl, ?_, ?_, ?_, ?_⟩
  · intro s p h
    simp [MockState.drop, h]
  · intro s p
    simp [MockState.drop, MockState.should_verify_on_drop]
  · intro s p flag
    rfl
  · intro s h
    simp [MockState.verify, h]

/-- C5 witness: dropping `unsatState` with the flag cleared raises nothing,
while an explicit `verify` on the same registry still panics. -/
theorem c5_verify_on_drop_spec_witness :
    (unsatState.should_verify_on_drop false).drop false = none ∧
    (unsatState.should_verify_on_drop false).verify false =
      some "There are unsatisfied expected behaviours for mocked traits." := by
  exact ⟨c5_verify_on_drop_spec.2.2.1 unsatState false,
    (c5_verify_on_drop_spec.2.2.2.1 unsatState false false).trans
      (c5_verify_on_drop_spec.2.2.2.2 unsatState (by decide))⟩

/-- C7 (confirmed): `add_given_behaviour` and `add_expect_behaviour` append
to the ordered sequence for the `(trait, method)` key, creating the bucket
if absent (the previous sequence defaults to `[]`), and registration order
is preserved: adding `b1` then `b2` under one key yields `old ++ [b1, b2]`. -/
theorem c7_register_order_spec (s : MockState) (t m : String)
    (g g1 g2 : GivenBehaviour) (e e1 e2 : ExpectBehaviour) :
    bucketGet (s.add_given_behaviour t m g).given_behaviours (t, m) =
      some ((bucketGet s.given_behaviours (t, m)).getD [] ++ [g]) ∧
    bucketGet ((s.add_given_behaviour t m g1).add_given_behaviour t m g2).given_behaviours
        (t, m) =
      some ((bucketGet s.given_behaviours (t, m)).getD [] ++ [g1, g2]) ∧
    bucketGet (s.add_expect_behaviour t m e).expect_behaviours (t, m) =
      some ((bucketGet s.expect_behaviours (t, m)).getD [] ++ [e]) ∧
    bucketGet ((s.add_expect_behaviour t m e1).add_expect_behaviour t m e2).expect_behaviours
        (t, m) =
      some ((bucketGet s.expect_behaviours (t, m)).getD [] ++ [e1, e2]) := by
  refine ⟨bucketGet_bucketAppend s.given_behaviours (t, m) g, ?_,
    bucketGet_bucketAppend s.expect_behaviours (t, m) e, ?_⟩
  · show bucketGet (bucketAppend (bucketAppend s.given_behaviours (t, m) g1) (t, m) g2)
        (t, m) = _
    rw [bucketGet_bucketAppend, bucketGet_bucketAppend]
    simp
  · show bucketGet (bucketAppend (bucketAppend s.expect_behaviours (t, m) e1) (t, m) e2)
        (t, m) = _
    rw [bucketGet_bucketAppend, bucketGet_bucketAppend]
    simp

/-- An unsatisfied expected behaviour (`exact(2)`, never matched) whose
declaration text does not mention its method name. -/
def greeterBehaviour : ExpectBehaviour :=
  ExpectBehaviour.with_times 2 0 () "expected repr"

/-- A registry with `greeterBehaviour` registered under
`("Greeter", "hello")`. -/
def greeterState : MockState :=
  MockState.new.add_expect_behaviour "Greeter" "hello" greeterBehaviour

/-- C6 counterexample: the diagnostic message emitted for an unsatisfied
behaviour registered under `("Greeter", "hello")` contains neither the
method name `hello` nor the trait name `Greeter` — the loop in
`are_expected_behaviours_satisfied` iterates over `values()`, discarding
the key, and formats only the match count and the declaration text. -/
theorem c6_claim_counterexample :
    (greeterState.are_expected_behaviours_satisfied).1 =
      ["Behaviour unsatisfied with 0 matching invocations: expected repr"] ∧
    strContains "Behaviour unsatisfied with 0 matching invocations: expected repr"
      "hello" = false ∧
    strContains "Behaviour unsatisfied with 0 matching invocations: expected repr"
      "Greeter" = false := by
  exact ⟨by decide, by decide, by decide⟩

/-- C6 (amended): for every unsatisfied expected behaviour found by
`are_expected_behaviours_satisfied`, the emitted diagnostic message
contains the behaviour's current match count and the original
declaration's textual description (but not the method's qualified name,
which the code never adds to the message). -/
theorem c6_message_contents (m : List (BehaviourKey × List ExpectBehaviour))
    (kv : BehaviourKey × List ExpectBehaviour) (b : ExpectBehaviour)
    (hkv : kv ∈ m) (hb : b ∈ kv.2) (hns : b.is_saturated = false) :
    unsatisfiedMessage b ∈ unsatisfiedMessages m ∧
    strContains (unsatisfiedMessage b) (toString b.num_matches) = true ∧
    strContains (unsatisfiedMessage b) b.describe = true := by
  refine ⟨unsatisfiedMessage_mem m kv hkv b hb hns, ?_, ?_⟩
  · apply strContains_of_eq _ "Behaviour unsatisfied with "
      (toString b.num_matches) (" matching invocations: " ++ b.describe)
    unfold unsatisfiedMessage
    rw [String.append_assoc]
  · apply strContains_of_eq _
      ("Behaviour unsatisfied with " ++ toString b.num_matches ++
        " matching invocations: ") b.describe ""
    unfold unsatisfiedMessage
    rw [String.append_empty]

/-- C6 witness: concrete instance of `c6_message_contents` on
`greeterState`. -/
theorem c6_message_contents_witness :
    unsatisfiedMessage greeterBehaviour ∈
      unsatisfiedMessages greeterState.expect_behaviours ∧
    strContains (unsatisfiedMessage greeterBehaviour)
      (toString greeterBehaviour.num_matches) = true ∧
    strContains (unsatisfiedMessage greeterBehaviour)
      greeterBehaviour.describe = true := by
  exact c6_message_contents greeterState.expect_behaviours
    (("Greeter", "hello"), [greeterBehaviour]) greeterBehaviour
    (by decide) (by decide) (by decide)

/-- C8 (confirmed): neither `are_expected_behaviours_satisfied` nor
`verify` mutates any state — in state-passing form both return the input
registry unchanged (hence every behaviour's match count, bounds and both
bucket maps are unchanged), and calling `verify` again on the returned
state yields the same outcome. -/
theorem c8_no_mutation_spec (s : MockState) (p : Bool) :
    (s.are_expected_behaviours_satisfiedS).1 = s ∧
    (s.verifyS p).1 = s ∧
    ((s.verifyS p).1.verifyS p).2 = (s.verifyS p).2 ∧
    (s.are_expected_behaviours_satisfiedS).1.given_behaviours =
      s.given_behaviours ∧
    (s.are_expected_behaviours_satisfiedS).1.expect_behaviours =
      s.expect_behaviours ∧
    (s.verifyS p).1.verify_on_drop = s.verify_on_drop := by
  exact ⟨rfl, rfl, rfl, rfl, rfl, rfl⟩

/-- C9 (confirmed): `reset_given_behaviours` clears every given bucket
(lookups on previously populated keys find nothing, and a subsequent
`add_given_behaviour` starts a fresh singleton bucket) while leaving the
expected-behaviour map and the `verify_on_drop` flag unchanged;
symmetrically, `reset_expected_behaviours` clears only the expected map. -/
theorem c9_reset_spec (s : MockState) (k : BehaviourKey) (g : GivenBehaviour) :
    bucketGet (s.reset_given_behaviours).given_behaviours k = none ∧
    (bucketGet (s.reset_given_behaviours).given_behaviours k).getD [] = [] ∧
    bucketGet ((s.reset_given_behaviours).add_given_behaviour k.1 k.2 g).given_behaviours
      k = some [g] ∧
    (s.reset_given_behaviours).expect_behaviours = s.expect_behaviours ∧
    (s.reset_given_behaviours).verify_on_drop = s.verify_on_drop ∧
    bucketGet (s.reset_expected_behaviours).expect_behaviours k = none ∧
    (s.reset_expected_behaviours).given_behaviours = s.given_behaviours ∧
    (s.reset_expected_behaviours).verify_on_drop = s.verify_on_drop := by
  refine ⟨rfl, rfl, ?_, rfl, rfl, rfl, rfl, rfl⟩
  simp [MockState.reset_given_behaviours, MockState.add_given_behaviour,
    bucketAppend, bucketGet]

/-- A given behaviour whose match counter has reached `usize::MAX`. -/
def maxedGiven : GivenBehaviour :=
  { stmt_id := 0
    num_matches := usizeMax
    expected_matches := none
    bound := ()
    stmt_repr := "g" }

/-- C10 counterexample: `record_match` on a behaviour whose counter holds
`usize::MAX` wraps the `usize` counter to `0` — it does not increment by
one, and the match count decreases, contradicting the claimed unconditional
monotonicity. -/
theorem c10_claim_counterexample :
    maxedGiven.matched.num_matches = 0 ∧
    maxedGiven.matched.num_matches < maxedGiven.num_matches := by
  exact ⟨by decide, by decide⟩

/-- C10 (amended): every constructor starts `match_count` at `0`;
`record_match` adds one modulo `2 ^ 64` (the `usize` width) and never
fails, so it increments the count by exactly one — and the count never
decreases — whenever the current count is below `usize::MAX`. -/
theorem c10_match_count_spec :
    (∀ i r, (GivenBehaviour.with' i () r).num_matches = 0) ∧
    (∀ L i r, (GivenBehaviour.with_times L i () r).num_matches = 0) ∧
    (∀ n i r, (ExpectBehaviour.with_times n i () r).num_matches = 0 ∧
      (ExpectBehaviour.with_at_least n i () r).num_matches = 0 ∧
      (ExpectBehaviour.with_at_most n i () r).num_matches = 0) ∧
    (∀ lo hi i r, (ExpectBehaviour.with_between lo hi i () r).num_matches = 0) ∧
    (∀ b : GivenBehaviour,
      b.matched.num_matches = (b.num_matches + 1) % usizeSize) ∧
    (∀ b : GivenBehaviour, b.num_matches < usizeMax →
      b.matched.num_matches = b.num_matches + 1) ∧
    (∀ b : GivenBehaviour, b.num_matches < usizeMax →
      b.num_matches ≤ b.matched.num_matches) ∧
    (∀ b : ExpectBehaviour,
      b.matched.num_matches = (b.num_matches + 1) % usizeSize) ∧
    (∀ b : ExpectBehaviour, b.num_matches < usizeMax →
      b.matched.num_matches = b.num_matches + 1) ∧
    (∀ b : ExpectBehaviour, b.num_matches < usizeMax →
      b.num_matches ≤ b.matched.num_matches) := by
  have hgiven : ∀ b : GivenBehaviour, b.num_matches < usizeMax →
      b.matched.num_matches = b.num_matches + 1 := by
    intro b h
    show (b.num_matches + 1) % usizeSize = b.num_matches + 1
    apply Nat.mod_eq_of_lt
    unfold usizeMax at h
    unfold usizeSize
    omega
  have hexpect : ∀ b : ExpectBehaviour, b.num_matches < usizeMax →
      b.matched.num_matches = b.num_matches + 1 := by
    intro b h
    show (b.num_matches + 1) % usizeSize = b.num_matches + 1
    apply Nat.mod_eq_of_lt
    unfold usizeMax at h
    unfold usizeSize
    omega
  refine ⟨fun i r => rfl, fun L i r => rfl, fun n i r => ⟨rfl, rfl, rfl⟩,
    fun lo hi i r => rfl, fun b => rfl, hgiven, ?_, fun b => rfl, hexpect, ?_⟩
  · intro b h
    rw [hgiven b h]
    omega
  · intro b h
    rw [hexpect b h]
    omega

/-- C10 witness: concrete instance of `c10_match_count_spec`: a freshly
constructed behaviour goes from zero to one match. -/
theorem c10_match_count_spec_witness :
    (GivenBehaviour.with' 0 () "g").matched.num_matches =
      (GivenBehaviour.with' 0 () "g").num_matches + 1 :=
  c10_match_count_spec.2.2.2.2.2.1 (GivenBehaviour.with' 0 () "g") (by decide)
